import Mathlib

/-
Verification development for the msfs2020-gopilot subscription / distribution
core (gopilot/main.go).

The embedding below follows the Go source closely:

list-of-pairs values model Go maps (each list is one representative of the
unspecified Go map iteration order, with distinct keys); fallible handlers
return Option (none models a Go panic caused by an unchecked type assertion);
the Provider Gateway (simconnect.SimMate, an external dependency) is modelled
through its call trace plus a value oracle; the RequestManager / Request types
live in a repository file that is not part of src, so they are modelled from
the specification where indicated.
-/

set_option autoImplicit false

open scoped List

universe u v

/-- Go map insertion for a map represented as a list of key-value pairs:
overwrite the binding if the key is present, otherwise append it. -/
def mapInsert {κ : Type u} {α : Type v} [DecidableEq κ] :
    List (κ × α) → κ → α → List (κ × α)
  | [], k, v => [(k, v)]
  | (k0, v0) :: rest, k, v =>
      if k0 = k then (k, v) :: rest else (k0, v0) :: mapInsert rest k v

/-- Go map lookup for a map represented as a list of key-value pairs. -/
def alookup {κ : Type u} {α : Type v} [DecidableEq κ] :
    List (κ × α) → κ → Option α
  | [], _ => none
  | (k0, v0) :: rest, k => if k0 = k then some v0 else alookup rest k

/-- The SIMCONNECT_DATATYPE enumeration of the simconnect library
(simconnect.DataTypeInt32 and friends), as used by main.go. -/
inductive DataType where
  | invalid
  | int32
  | int64
  | float32
  | float64
  | string8
  | string32
  | string64
  | string128
  | string256
  | string260
  | stringV
  | initPosition
  | markerState
  | waypoint
  | latLonAlt
  | xyz
deriving DecidableEq

/-- Modelled from the spec: the raw cached value held by the Provider Gateway
for a registered variable (readVariable returns a rawValue, section 6). The
raw bytes are modelled as a tagged payload. -/
inductive RawValue where
  | i32 (v : Int)
  | i64 (v : Int)
  | f32 (v : Rat)
  | f64 (v : Rat)
  | str (s : String)
deriving DecidableEq

/-- A converted, language-native scalar as stored into the per-tick
alias-value mapping by OnDataReady. -/
inductive OutVal where
  | int32 (v : Int)
  | int64 (v : Int)
  | float32 (v : Rat)
  | float64 (v : Rat)
  | str (s : String)
deriving DecidableEq

/-- Modelled from the spec: simconnect.ValueToInt32 decodes the raw value as a
signed 32-bit integer (conversion per declared type, section 4.4). -/
def ValueToInt32 : RawValue → Int
  | RawValue.i32 v => v
  | _ => 0

/-- Modelled from the spec: simconnect.ValueToInt64 decodes the raw value as a
signed 64-bit integer. -/
def ValueToInt64 : RawValue → Int
  | RawValue.i64 v => v
  | _ => 0

/-- Modelled from the spec: simconnect.ValueToFloat32 decodes the raw value as
a 32-bit float. -/
def ValueToFloat32 : RawValue → Rat
  | RawValue.f32 v => v
  | _ => 0

/-- Modelled from the spec: simconnect.ValueToFloat64 decodes the raw value as
a 64-bit float. -/
def ValueToFloat64 : RawValue → Rat
  | RawValue.f64 v => v
  | _ => 0

/-- Modelled from the spec: simconnect.ValueToString decodes the raw value as
a string. -/
def ValueToString : RawValue → String
  | RawValue.str s => s
  | _ => ""

/-- Modelled from the spec: one entry of a Request (requestmanager.go is not
under src). A Subscription pairs the provider variable name with the
client-chosen alias, called moniker in the code (section 3). -/
structure Var where
  Name : String
  Moniker : String
deriving DecidableEq

/-- Modelled from the spec: a Request is one client's full set of variable
subscriptions plus an opaque meta tag (section 3); main.go accesses the fields
ClientID, Meta and Vars, with Vars keyed by the provider defineID. -/
structure Request where
  ClientID : String
  Meta : String
  Vars : List (Nat × Var)
deriving DecidableEq

/-- Modelled from the spec: NewRequest(connID, msg.Meta) creates an empty
Request for one client. -/
def NewRequest (clientID meta : String) : Request :=
  ⟨clientID, meta, []⟩

/-- Modelled from the spec: request.Add(defineID, name, moniker) stores a
Subscription under the provider handle; Go map insertion, last write wins. -/
def Request.Add (r : Request) (defineID : Nat) (name moniker : String) : Request :=
  { r with Vars := mapInsert r.Vars defineID ⟨name, moniker⟩ }

/-- Modelled from the spec: RequestManager.RefCount(name) counts live
Subscriptions across all Requests whose variable name matches (the
subscriber-count-by-name introspection of section 4.2, used by
removeRequests in main.go as the reference count). -/
def RefCount (requests : List Request) (name : String) : Nat :=
  (requests.map (fun r => (r.Vars.filter (fun p => p.2.Name == name)).length)).sum

/-- One call made by main.go into the Provider Gateway registration surface
(simconnect.SimMate.AddSimVar / RemoveSimVar), recorded in order. -/
inductive GatewayEvent where
  | addVar (defineID : Nat) (name : String) (unit : String) (typ : DataType)
  | removeVar (defineID : Nat)
deriving DecidableEq

/-- Modelled from the spec: the externally-owned registration state of the
Provider Gateway; registerVariable returns a fresh handle per call
(section 6) and every call is recorded in the event trace. -/
structure MateState where
  nextID : Nat
  events : List GatewayEvent
deriving DecidableEq

/-- Modelled from the spec: app.mate.AddSimVar(name, unit, typ) registers the
variable with the provider and returns a fresh defineID handle. -/
def AddSimVar (m : MateState) (name unit : String) (typ : DataType) : Nat × MateState :=
  (m.nextID, ⟨m.nextID + 1, m.events ++ [GatewayEvent.addVar m.nextID name unit typ]⟩)

/-- Modelled from the spec: app.mate.RemoveSimVar(defineID) deregisters the
provider-level registration behind the handle. -/
def RemoveSimVar (m : MateState) (defineID : Nat) : MateState :=
  { m with events := m.events ++ [GatewayEvent.removeVar defineID] }

/-- The state of the App that the register / deregister handlers touch: the
RequestManager's Requests slice and the Provider Gateway state. -/
structure AppState where
  requests : List Request
  mate : MateState
deriving DecidableEq

/-- The state at startup: no Requests, no provider registrations. -/
def initialState : AppState :=
  ⟨[], ⟨0, []⟩⟩

/-- One parsed entry of a register message's data array; main.go decodes the
name, unit and moniker fields with jsonparser and converts the type string via
simconnect.StringToDataType, whose result the field typ holds. -/
structure RegEntry where
  name : String
  unit : String
  typ : DataType
  moniker : String
deriving DecidableEq

/-- The body of the per-entry loop of handleRegisterMessage (main.go lines
252-263): register the variable with the provider, then add the subscription
to the request being built. -/
def regStep (acc : Request × MateState) (e : RegEntry) : Request × MateState :=
  ((acc.1).Add (AddSimVar acc.2 e.name e.unit e.typ).1 e.name e.moniker,
   (AddSimVar acc.2 e.name e.unit e.typ).2)

/-- handleRegisterMessage (main.go lines 249-266): build a fresh Request from
the entries, calling AddSimVar once per entry, then AddRequest it.
Modelled from the spec: RequestManager.AddRequest is not under src; per
section 3 the previous Request for the client is not implicitly retired, so
AddRequest appends the new Request to the Requests slice. -/
def handleRegisterMessage (s : AppState) (connID meta : String)
    (entries : List RegEntry) : AppState :=
  ⟨s.requests ++ [(entries.foldl regStep (NewRequest connID meta, s.mate)).1],
   (entries.foldl regStep (NewRequest connID meta, s.mate)).2⟩

/-- The defineIDs that removeRequests deregisters: for every removed request,
every subscription whose variable name has reference count zero over the
remaining requests. -/
def removedDefineIDs (temp removed : List Request) : List Nat :=
  removed.flatMap (fun r =>
    r.Vars.filterMap (fun p => if RefCount temp p.2.Name = 0 then some p.1 else none))

/-- removeRequests (main.go lines 306-325): drop every Request of the client,
then deregister each removed subscription's handle whose name is no longer
referenced by any remaining Request. -/
def removeRequests (s : AppState) (connID : String) : AppState :=
  ⟨s.requests.filter (fun r => r.ClientID != connID),
   (removedDefineIDs (s.requests.filter (fun r => r.ClientID != connID))
       (s.requests.filter (fun r => r.ClientID == connID))).foldl RemoveSimVar s.mate⟩

/-- handleDeregisterMessage (main.go lines 268-271) just delegates to
removeRequests for the sending connection. -/
def handleDeregisterMessage (s : AppState) (connID : String) : AppState :=
  removeRequests s connID

/-- One registry-mutating operation: a register control message or a
deregister control message / client disconnect (both call removeRequests). -/
inductive Op where
  | register (connID meta : String) (entries : List RegEntry)
  | deregister (connID : String)

/-- Dispatch one operation, as handleSocketMessages does (main.go 225-243). -/
def stepOp (s : AppState) : Op → AppState
  | Op.register connID meta entries => handleRegisterMessage s connID meta entries
  | Op.deregister connID => removeRequests s connID

/-- Run a sequence of register / deregister operations from startup. -/
def run (ops : List Op) : AppState :=
  ops.foldl stepOp initialState

/-- The handles passed to provider register calls, in trace order. -/
def regIDs (events : List GatewayEvent) : List Nat :=
  events.filterMap (fun e =>
    match e with
    | GatewayEvent.addVar d _ _ _ => some d
    | GatewayEvent.removeVar _ => none)

/-- The handles passed to provider deregister calls, in trace order. -/
def deregIDs (events : List GatewayEvent) : List Nat :=
  events.filterMap (fun e =>
    match e with
    | GatewayEvent.addVar _ _ _ _ => none
    | GatewayEvent.removeVar d => some d)

/-- The provider register calls recorded for a given variable name. -/
def regEventsFor (events : List GatewayEvent) (name : String) : List GatewayEvent :=
  events.filter (fun e =>
    match e with
    | GatewayEvent.addVar _ n _ _ => n == name
    | GatewayEvent.removeVar _ => false)

/-- All defineIDs held by the live Requests. -/
def reqIDs (requests : List Request) : List Nat :=
  requests.flatMap (fun r => r.Vars.map Prod.fst)

/-- The result of app.mate.SimVarValueAndDataType(defineID): a found flag, a
possibly-nil raw value, and the declared data type. -/
structure SimVarLookup where
  ok : Bool
  value : Option RawValue
  dataType : DataType
deriving DecidableEq

/-- The body of the per-subscription loop of OnDataReady (main.go lines
360-387): skip the entry when not found or the value is nil, otherwise
convert according to the declared data type; a type outside the handled set
falls through the switch and produces nothing. -/
def convertSimVar (l : SimVarLookup) : Option OutVal :=
  if l.ok = false then none
  else
    match l.value with
    | none => none
    | some raw =>
        match l.dataType with
        | DataType.int32 => some (OutVal.int32 (ValueToInt32 raw))
        | DataType.int64 => some (OutVal.int64 (ValueToInt64 raw))
        | DataType.float32 => some (OutVal.float32 (ValueToFloat32 raw))
        | DataType.float64 => some (OutVal.float64 (ValueToFloat64 raw))
        | DataType.string8 => some (OutVal.str (ValueToString raw))
        | DataType.string32 => some (OutVal.str (ValueToString raw))
        | DataType.string64 => some (OutVal.str (ValueToString raw))
        | DataType.string128 => some (OutVal.str (ValueToString raw))
        | DataType.string256 => some (OutVal.str (ValueToString raw))
        | DataType.string260 => some (OutVal.str (ValueToString raw))
        | DataType.stringV => some (OutVal.str (ValueToString raw))
        | _ => none

/-- The alias-value map one Request contributes on a data-ready tick
(main.go lines 359-387): iterate the Request's Vars, look each defineID up
with SimVarValueAndDataType (the simVars oracle), and insert the converted
value under the subscription's moniker. -/
def buildVars (vars : List (Nat × Var)) (simVars : Nat → SimVarLookup) :
    List (String × OutVal) :=
  vars.foldl (fun acc p =>
    match convertSimVar (simVars p.1) with
    | none => acc
    | some out => mapInsert acc p.2.Moniker out) []

/-- The per-client simvars payload: a map with the fixed keys type, meta and
data (main.go lines 355-388). -/
structure SimvarsPayload where
  type : String
  meta : String
  data : List (String × OutVal)
deriving DecidableEq

/-- The broadcast status payload: a map with the fixed keys type and data
(main.go lines 400-401). -/
structure StatusPayload where
  type : String
  data : List (String × Bool)
deriving DecidableEq

/-- BroadcastStatusMessage (main.go lines 399-408): the payload is
type "status" with data holding the key "simconnect" mapped to
app.mate.IsConnected(); json.Marshal of this shape cannot fail, so the
broadcast is always issued. -/
def BroadcastStatusMessage (connected : Bool) : StatusPayload :=
  ⟨"status", [("simconnect", connected)]⟩

/-- One outbound transport action of the distribution tick: a payload sent to
a single client by UUID, or a broadcast to all clients. -/
inductive Outbound where
  | sendTo (clientID : String) (payload : SimvarsPayload)
  | broadcast (payload : StatusPayload)
deriving DecidableEq

/-- OnDataReady (main.go lines 353-397): for every live Request, in order,
send its simvars payload to the Request's ClientID (json.Marshal of this
shape cannot fail), then broadcast the single status payload. -/
def OnDataReady (requests : List Request) (simVars : Nat → SimVarLookup)
    (connected : Bool) : List Outbound :=
  requests.map (fun r =>
      Outbound.sendTo r.ClientID ⟨"simvars", r.Meta, buildVars r.Vars simVars⟩)
    ++ [Outbound.broadcast (BroadcastStatusMessage connected)]

/-- Recognize the broadcast action. -/
def isBroadcast : Outbound → Bool
  | Outbound.sendTo _ _ => false
  | Outbound.broadcast _ => true

/-- The data types the OnDataReady switch handles. -/
def handledDataTypes : List DataType :=
  [DataType.int32, DataType.int64, DataType.float32, DataType.float64,
   DataType.string8, DataType.string32, DataType.string64, DataType.string128,
   DataType.string256, DataType.string260, DataType.stringV]

/-- A lookup result for a handle the provider has no value for. -/
def notFoundLookup : SimVarLookup :=
  ⟨false, none, DataType.invalid⟩

/-- Replace the oracle's answer for one defineID by not-found. -/
def overrideOracle (simVars : Nat → SimVarLookup) (d : Nat) : Nat → SimVarLookup :=
  fun k => if k = d then notFoundLookup else simVars k

/-- A JSON value inside a decoded control message's data object, as
encoding/json places it into map of string to interface: numbers become
float64, plus strings, booleans and null. -/
inductive JsonVal where
  | num (x : Rat)
  | str (s : String)
  | boolean (b : Bool)
  | null
deriving DecidableEq

/-- The Go expression msg.Data[key].(float64): the unchecked type assertion
succeeds only when the key is present and holds a number; in every other case
(missing key, null, wrong type) the Go code panics, modelled as none. -/
def assertFloat64 (data : List (String × JsonVal)) (key : String) : Option Rat :=
  match alookup data key with
  | some (JsonVal.num x) => some x
  | _ => none

/-- The Go expression msg.Data[key].(string): the unchecked type assertion
succeeds only when the key is present and holds a string; otherwise the Go
code panics, modelled as none. -/
def assertString (data : List (String × JsonVal)) (key : String) : Option String :=
  match alookup data key with
  | some (JsonVal.str s) => some s
  | _ => none

/-- One one-shot write issued through
app.mate.SetSimObjectData(name, unit, value, type). -/
structure Write where
  name : String
  unit : String
  value : Rat
  typ : DataType
deriving DecidableEq

/-- handleTeleportMessage (main.go lines 273-292): five unchecked float64
type assertions on the message data, then seven fixed one-shot writes with
bank and pitch forced to O; none models the panic of a failed assertion. -/
def handleTeleportMessage (data : List (String × JsonVal)) : Option (List Write) := do
  let latitude ← assertFloat64 data "latitude"
  let longitude ← assertFloat64 data "longitude"
  let altitude ← assertFloat64 data "altitude"
  let heading ← assertFloat64 data "heading"
  let airspeed ← assertFloat64 data "airspeed"
  pure [⟨"PLANE LATITUDE", "degrees", latitude, DataType.float64⟩,
        ⟨"PLANE LONGITUDE", "degrees", longitude, DataType.float64⟩,
        ⟨"PLANE ALTITUDE", "feet", altitude, DataType.float64⟩,
        ⟨"PLANE HEADING DEGREES TRUE", "degrees", heading, DataType.float64⟩,
        ⟨"AIRSPEED TRUE", "knot", airspeed, DataType.float64⟩,
        ⟨"PLANE BANK DEGREES", "degrees", 0, DataType.float64⟩,
        ⟨"PLANE PITCH DEGREES", "degrees", 0, DataType.float64⟩]

/-- handleSetDataMessage (main.go lines 294-304): two unchecked string
assertions and one float64 assertion, then a single one-shot write; none
models the panic of a failed assertion. -/
def handleSetDataMessage (data : List (String × JsonVal)) : Option Write := do
  let name ← assertString data "name"
  let unit ← assertString data "unit"
  let value ← assertFloat64 data "value"
  pure ⟨name, unit, value, DataType.float64⟩

/-- An event arriving at the connect loop's select statement: a retry ticker
tick or the timeout timer firing, tagged with its time in seconds. -/
inductive ConnEvent where
  | tick
  | timeout
deriving DecidableEq

/-- The outcome of the connect loop: connection established, or the timeout
error returned, either way carrying the number of attempts made. -/
inductive ConnResult where
  | connected (attempts : Nat)
  | timedOut (attempts : Nat)
deriving DecidableEq

/-- The select loop of connect (main.go lines 161-186), driven by the merged
timer event stream: each tick increments the attempt counter and tries
mate.Open (openOk, indexed by attempt number); the first timeout event
returns the timeout error. none means the event stream was exhausted with
neither outcome. -/
def connectLoop (openOk : Nat → Bool) :
    List (Nat × ConnEvent) → Nat → Option ConnResult
  | [], _ => none
  | (_, ConnEvent.tick) :: rest, count =>
      if openOk (count + 1) then some (ConnResult.connected (count + 1))
      else connectLoop openOk rest (count + 1)
  | (_, ConnEvent.timeout) :: _, count => some (ConnResult.timedOut count)

/-- The retry ticker's first j events: ticks at times r, 2r, ..., jr. -/
def tickSchedule (r j : Nat) : List (Nat × ConnEvent) :=
  (List.range j).map (fun i => ((i + 1) * r, ConnEvent.tick))

/-- Inserting under a key absent from the map appends the binding. -/
theorem mapInsert_absent {κ : Type u} {α : Type v} [DecidableEq κ]
    (m : List (κ × α)) (k : κ) (v : α) (h : k ∉ m.map Prod.fst) :
    mapInsert m k v = m ++ [(k, v)] := by
  induction m with
  | nil => rfl
  | cons p t ih =>
    obtain ⟨k0, v0⟩ := p
    by_cases hk : k0 = k
    · exact absurd (by simp [hk]) h
    · rw [mapInsert, if_neg hk, ih (fun hx => h (by simp [List.map_cons]; right; simpa using hx))]
      rfl

/-- Claim C4 (code bug): the setdata and teleport handlers perform unchecked
Go type assertions on the message data; a message with a missing or
wrongly-typed field makes the handler panic (modelled as none) instead of
being dropped with processing continuing. -/
theorem C4_malformed_message_panics :
    handleTeleportMessage [] = none
    ∧ handleTeleportMessage [("latitude", JsonVal.num 47)] = none
    ∧ handleTeleportMessage
        [("latitude", JsonVal.str "47"), ("longitude", JsonVal.num 8),
         ("altitude", JsonVal.num 1200), ("heading", JsonVal.num 90),
         ("airspeed", JsonVal.num 120)] = none
    ∧ handleSetDataMessage
        [("name", JsonVal.str "PLANE ALTITUDE"), ("unit", JsonVal.str "feet")] = none
    ∧ handleSetDataMessage
        [("name", JsonVal.str "PLANE ALTITUDE"), ("unit", JsonVal.str "feet"),
         ("value", JsonVal.str "100")] = none :=
  ⟨rfl, rfl, rfl, rfl, rfl⟩

/-- Claim C6 (confirmed): a teleport message carrying its five numeric fields
produces exactly the seven fixed one-shot writes, with bank and pitch forced
to zero and the other values taken from the message. -/
theorem C6_teleport_seven_writes (data : List (String × JsonVal))
    (lat lon alt hdg spd : Rat)
    (hlat : alookup data "latitude" = some (JsonVal.num lat))
    (hlon : alookup data "longitude" = some (JsonVal.num lon))
    (halt : alookup data "altitude" = some (JsonVal.num alt))
    (hhdg : alookup data "heading" = some (JsonVal.num hdg))
    (hspd : alookup data "airspeed" = some (JsonVal.num spd)) :
    handleTeleportMessage data =
      some [⟨"PLANE LATITUDE", "degrees", lat, DataType.float64⟩,
            ⟨"PLANE LONGITUDE", "degrees", lon, DataType.float64⟩,
            ⟨"PLANE ALTITUDE", "feet", alt, DataType.float64⟩,
            ⟨"PLANE HEADING DEGREES TRUE", "degrees", hdg, DataType.float64⟩,
            ⟨"AIRSPEED TRUE", "knot", spd, DataType.float64⟩,
            ⟨"PLANE BANK DEGREES", "degrees", 0, DataType.float64⟩,
            ⟨"PLANE PITCH DEGREES", "degrees", 0, DataType.float64⟩] := by
  simp [handleTeleportMessage, assertFloat64, hlat, hlon, halt, hhdg, hspd]

/-- The teleport scenario of the spec's testable properties. -/
def teleportExample : List (String × JsonVal) :=
  [("latitude", JsonVal.num 47), ("longitude", JsonVal.num 8),
   ("altitude", JsonVal.num 1200), ("heading", JsonVal.num 90),
   ("airspeed", JsonVal.num 120)]

/-- Witness for C6 at the spec's concrete teleport scenario. -/
theorem C6_witness :
    handleTeleportMessage teleportExample =
      some [⟨"PLANE LATITUDE", "degrees", 47, DataType.float64⟩,
            ⟨"PLANE LONGITUDE", "degrees", 8, DataType.float64⟩,
            ⟨"PLANE ALTITUDE", "feet", 1200, DataType.float64⟩,
            ⟨"PLANE HEADING DEGREES TRUE", "degrees", 90, DataType.float64⟩,
            ⟨"AIRSPEED TRUE", "knot", 120, DataType.float64⟩,
            ⟨"PLANE BANK DEGREES", "degrees", 0, DataType.float64⟩,
            ⟨"PLANE PITCH DEGREES", "degrees", 0, DataType.float64⟩] :=
  C6_teleport_seven_writes teleportExample 47 8 1200 90 120 rfl rfl rfl rfl rfl

/-- When every open attempt fails, the connect loop consumes all ticks in
front of the first timeout event, counting one attempt per tick, and returns
the timeout error there. -/
theorem connectLoop_all_ticks_then_timeout (rest : List (Nat × ConnEvent)) (t : Nat)
    (es : List (Nat × ConnEvent)) :
    ∀ c : Nat, (∀ e ∈ es, e.2 = ConnEvent.tick) →
    connectLoop (fun _ => false) (es ++ (t, ConnEvent.timeout) :: rest) c
      = some (ConnResult.timedOut (c + es.length)) := by
  induction es with
  | nil => intro c _; simp [connectLoop]
  | cons e tail ih =>
    intro c h
    obtain ⟨tm, ev⟩ := e
    have he : ev = ConnEvent.tick := h (tm, ev) (by simp)
    subst he
    rw [List.cons_append, connectLoop, if_neg (by simp)]
    rw [ih (c + 1) (fun x hx => h x (List.mem_cons_of_mem _ hx))]
    have : c + 1 + tail.length = c + (tail.length + 1) := by omega
    rw [this, List.length_cons]

/-- Claim C9 (confirmed): with a 1-second retry ticker and 3-second timeout,
on any merged timer schedule (j ticks at seconds 1..j precede the timeout
event at second 3, with the tie at second 3 broken either way, so j times 1
is at most 3 and 3 is at most j plus 1) and every open attempt failing, the
connect loop returns the timeout error after exactly j attempts, with j
between 2 and 3, hence no more than 4. -/
theorem C9_connect_times_out (j : Nat) (rest : List (Nat × ConnEvent))
    (hlow : j * 1 ≤ 3) (hhigh : 3 ≤ (j + 1) * 1) :
    connectLoop (fun _ => false)
        (tickSchedule 1 j ++ (3, ConnEvent.timeout) :: rest) 0
      = some (ConnResult.timedOut j)
    ∧ 2 ≤ j ∧ j ≤ 4 := by
  refine ⟨?_, by omega, by omega⟩
  have hticks : ∀ e ∈ tickSchedule 1 j, e.2 = ConnEvent.tick := by
    intro e he
    rw [tickSchedule] at he
    obtain ⟨i, -, rfl⟩ := List.mem_map.mp he
    rfl
  rw [connectLoop_all_ticks_then_timeout rest 3 (tickSchedule 1 j) 0 hticks]
  simp [tickSchedule]

/-- Witness for C9: the schedule where the third tick precedes the timeout. -/
theorem C9_witness :
    connectLoop (fun _ => false)
        (tickSchedule 1 3 ++ (3, ConnEvent.timeout) :: []) 0
      = some (ConnResult.timedOut 3)
    ∧ 2 ≤ 3 ∧ 3 ≤ 4 :=
  C9_connect_times_out 3 [] (by decide) (by decide)

/-- Claim C5 counterexample: the broadcast status payload's data object has
no key named connected; the code writes the connectivity flag under the key
simconnect instead. -/
theorem C5_counterexample :
    alookup (BroadcastStatusMessage true).data "connected" = none
    ∧ (BroadcastStatusMessage true).data = [("simconnect", true)] :=
  ⟨rfl, rfl⟩

/-- No simvars send of the tick is a broadcast. -/
theorem filter_isBroadcast_sends (requests : List Request)
    (simVars : Nat → SimVarLookup) :
    (requests.map (fun r =>
        Outbound.sendTo r.ClientID ⟨"simvars", r.Meta, buildVars r.Vars simVars⟩)).filter
          isBroadcast = [] := by
  induction requests with
  | nil => rfl
  | cons r t ih => simp [List.filter_cons, isBroadcast, ih]

/-- Claim C5 (amended): after the per-request sends, OnDataReady broadcasts
exactly one status payload of shape type equal to the string status and data
holding the single key simconnect mapped to the provider connectivity flag;
it is the last action of the tick and the only broadcast. -/
theorem C5_status_broadcast (requests : List Request)
    (simVars : Nat → SimVarLookup) (connected : Bool) :
    (OnDataReady requests simVars connected).filter isBroadcast
        = [Outbound.broadcast ⟨"status", [("simconnect", connected)]⟩]
    ∧ ∃ sends : List Outbound,
        OnDataReady requests simVars connected
            = sends ++ [Outbound.broadcast (BroadcastStatusMessage connected)]
          ∧ sends.all (fun a => !isBroadcast a) = true := by
  constructor
  · rw [OnDataReady, List.filter_append, filter_isBroadcast_sends]
    rfl
  · have hsends : OnDataReady requests simVars connected
        = (requests.map (fun r =>
            Outbound.sendTo r.ClientID ⟨"simvars", r.Meta, buildVars r.Vars simVars⟩))
          ++ [Outbound.broadcast (BroadcastStatusMessage connected)] := rfl
    refine ⟨_, hsends, ?_⟩
    rw [List.all_eq_true]
    intro a ha
    obtain ⟨r, -, rfl⟩ := List.mem_map.mp ha
    rfl

/-- A list with no Request of the removed client filters to itself. -/
theorem filter_bne_of_no_match (connID : String) :
    ∀ l : List Request, l.filter (fun r => r.ClientID == connID) = [] →
    l.filter (fun r => r.ClientID != connID) = l := by
  intro l
  induction l with
  | nil => intro _; rfl
  | cons r t ih =>
    intro h
    rw [List.filter_cons] at h ⊢
    by_cases hc : r.ClientID = connID
    · rw [if_pos (by simp [hc])] at h
      exact absurd h (by simp)
    · rw [if_pos (by simp [hc])]
      rw [if_neg (by simp [hc])] at h
      rw [ih h]

/-- Claim C7 (confirmed): after removeRequests for a client, no Request of
that client remains, the Requests of every other client are kept unchanged
and in order, and the call is a no-op when the client has no Request. -/
theorem C7_removeRequests_removes (s : AppState) (connID : String) :
    (∀ r ∈ (removeRequests s connID).requests, ¬ r.ClientID = connID)
    ∧ (removeRequests s connID).requests
        = s.requests.filter (fun r => r.ClientID != connID)
    ∧ (s.requests.filter (fun r => r.ClientID == connID) = [] →
        removeRequests s connID = s) := by
  refine ⟨?_, rfl, ?_⟩
  · intro r hr
    rw [removeRequests] at hr
    have := (List.mem_filter.mp hr).2
    simpa using this
  · intro h
    rw [removeRequests, h, removedDefineIDs]
    rw [filter_bne_of_no_match connID s.requests h]
    rfl

/-- A Request of client a used by the C7 witness. -/
def reqClientA : Request := ⟨"a", "ma", [(0, ⟨"X", "x"⟩)]⟩

/-- A Request of client b used by the C7 witness. -/
def reqClientB : Request := ⟨"b", "mb", [(1, ⟨"Y", "y"⟩)]⟩

/-- A two-client state used by the C7 witness. -/
def stateAB : AppState :=
  ⟨[reqClientA, reqClientB],
   ⟨2, [GatewayEvent.addVar 0 "X" "u" DataType.float64,
        GatewayEvent.addVar 1 "Y" "u" DataType.float64]⟩⟩

/-- Witness for C7: removing client a leaves client b's Request (whose
client is not a), and removing an unknown client is a no-op. -/
theorem C7_witness :
    ¬ reqClientB.ClientID = "a" ∧ removeRequests stateAB "ghost" = stateAB :=
  ⟨(C7_removeRequests_removes stateAB "a").1 reqClientB (by decide),
   (C7_removeRequests_removes stateAB "ghost").2.2 (by decide)⟩

/-- Filtering out a client is idempotent, and the second pass removes
nothing. -/
theorem filter_bne_idem (connID : String) :
    ∀ l : List Request,
    (l.filter (fun r => r.ClientID != connID)).filter (fun r => r.ClientID != connID)
        = l.filter (fun r => r.ClientID != connID)
    ∧ (l.filter (fun r => r.ClientID != connID)).filter (fun r => r.ClientID == connID)
        = [] := by
  intro l
  induction l with
  | nil => exact ⟨rfl, rfl⟩
  | cons r t ih =>
    by_cases hc : r.ClientID = connID
    · rw [List.filter_cons, if_neg (by simp [hc])]
      exact ih
    · rw [List.filter_cons, if_pos (by simp [hc])]
      constructor
      · rw [List.filter_cons, if_pos (by simp [hc]), ih.1]
      · rw [List.filter_cons, if_neg (by simp [hc]), ih.2]

/-- Claim C8 (confirmed): removeRequests is idempotent; the second call for
the same client leaves both the Requests slice and the provider event trace
exactly as after the first call, issuing no further deregister. -/
theorem C8_removeRequests_idempotent (s : AppState) (connID : String) :
    removeRequests (removeRequests s connID) connID = removeRequests s connID := by
  obtain ⟨h1, h2⟩ := filter_bne_idem connID s.requests
  show removeRequests
      ⟨s.requests.filter (fun r => r.ClientID != connID), _⟩ connID = _
  rw [removeRequests]
  simp only
  rw [h1, h2, removedDefineIDs]
  rfl

/-- Unfolded accumulator form of the OnDataReady per-request loop: with
pairwise-distinct monikers every insertion lands on a fresh key, so the
built map is the accumulator followed by one entry per convertible
subscription. -/
theorem buildVars_go (simVars : Nat → SimVarLookup) :
    ∀ (vars : List (Nat × Var)) (acc : List (String × OutVal)),
    (vars.map (fun p => p.2.Moniker)).Nodup →
    (∀ k ∈ acc.map Prod.fst, k ∉ vars.map (fun p => p.2.Moniker)) →
    vars.foldl (fun acc p =>
        match convertSimVar (simVars p.1) with
        | none => acc
        | some out => mapInsert acc p.2.Moniker out) acc
      = acc ++ vars.filterMap (fun p =>
          (convertSimVar (simVars p.1)).map (fun out => (p.2.Moniker, out))) := by
  intro vars
  induction vars with
  | nil => intro acc _ _; simp
  | cons p t ih =>
    intro acc hnd hdisj
    rw [List.foldl_cons, List.filterMap_cons]
    have hndt : (t.map (fun p => p.2.Moniker)).Nodup := (List.nodup_cons.mp hnd).2
    have hhead : p.2.Moniker ∉ t.map (fun p => p.2.Moniker) := (List.nodup_cons.mp hnd).1
    cases hcv : convertSimVar (simVars p.1) with
    | none =>
      simp only [hcv, Option.map_none']
      rw [ih acc hndt (fun k hk => fun hmem =>
        hdisj k hk (List.mem_cons_of_mem _ hmem))]
    | some out =>
      simp only [hcv, Option.map_some']
      have habs : p.2.Moniker ∉ acc.map Prod.fst := by
        intro hmem
        exact hdisj _ hmem (by simp)
      rw [mapInsert_absent acc p.2.Moniker out habs]
      rw [ih (acc ++ [(p.2.Moniker, out)]) hndt ?_]
      · rw [List.append_assoc]
        rfl
      · intro k hk
        rw [List.map_append] at hk
        rcases List.mem_append.mp hk with hk1 | hk2
        · exact fun hmem => hdisj k hk1 (List.mem_cons_of_mem _ hmem)
        · have : k = p.2.Moniker := by simpa using hk2
          rw [this]
          exact hhead

/-- With pairwise-distinct monikers, the alias-value map of a tick is, entry
for entry, the convertible subscriptions in order. -/
theorem buildVars_eq_filterMap (vars : List (Nat × Var))
    (simVars : Nat → SimVarLookup)
    (hnd : (vars.map (fun p => p.2.Moniker)).Nodup) :
    buildVars vars simVars = vars.filterMap (fun p =>
        (convertSimVar (simVars p.1)).map (fun out => (p.2.Moniker, out))) := by
  have h := buildVars_go simVars vars [] hnd (by simp)
  simpa [buildVars] using h

/-- Claim C2 (confirmed): on a data-ready tick, each live Request (with
distinct aliases, the spec's Request invariant) leads to exactly one send to
the Request's own client of the payload with type simvars, the Request's
meta, and the alias-value map holding the converted value under the alias of
every subscription whose value is found and of a handled type, and no entry
for a subscription whose lookup yields nothing; every outbound action of the
tick is such a send or the final status broadcast. -/
theorem C2_per_request_payload (requests : List Request)
    (simVars : Nat → SimVarLookup) (connected : Bool) (r : Request)
    (hr : r ∈ requests)
    (hnd : (r.Vars.map (fun p => p.2.Moniker)).Nodup) :
    (Outbound.sendTo r.ClientID ⟨"simvars", r.Meta, buildVars r.Vars simVars⟩
        ∈ OnDataReady requests simVars connected)
    ∧ (∀ p ∈ r.Vars, ∀ out, convertSimVar (simVars p.1) = some out →
        (p.2.Moniker, out) ∈ buildVars r.Vars simVars)
    ∧ (∀ p ∈ r.Vars, convertSimVar (simVars p.1) = none →
        ∀ out, (p.2.Moniker, out) ∉ buildVars r.Vars simVars)
    ∧ (∀ a ∈ OnDataReady requests simVars connected,
        (∃ q ∈ requests, a = Outbound.sendTo q.ClientID
            ⟨"simvars", q.Meta, buildVars q.Vars simVars⟩)
        ∨ a = Outbound.broadcast (BroadcastStatusMessage connected)) := by
  refine ⟨?_, ?_, ?_, ?_⟩
  · rw [OnDataReady]
    exact List.mem_append_left _ (List.mem_map_of_mem _ hr)
  · intro p hp out hout
    rw [buildVars_eq_filterMap r.Vars simVars hnd]
    exact List.mem_filterMap.mpr ⟨p, hp, by rw [hout]; rfl⟩
  · intro p hp hnone out hmem
    rw [buildVars_eq_filterMap r.Vars simVars hnd] at hmem
    obtain ⟨q, hq, hqe⟩ := List.mem_filterMap.mp hmem
    cases hq2 : convertSimVar (simVars q.1) with
    | none => rw [hq2] at hqe; exact absurd hqe (by simp)
    | some out2 =>
      rw [hq2] at hqe
      have hqm : q.2.Moniker = p.2.Moniker := by
        have := Option.some.inj hqe
        exact congrArg Prod.fst this
      have hqp : q = p :=
        List.inj_on_of_nodup_map hnd hq hp hqm
      rw [hqp] at hq2
      rw [hq2] at hnone
      exact absurd hnone (by simp)
  · intro a ha
    rw [OnDataReady] at ha
    rcases List.mem_append.mp ha with h1 | h2
    · obtain ⟨q, hq, rfl⟩ := List.mem_map.mp h1
      exact Or.inl ⟨q, hq, rfl⟩
    · right
      simpa using h2

/-- The single-subscription Request of the spec's airspeed scenario. -/
def reqSpd : Request := ⟨"clientA", "panel1", [(0, ⟨"AIRSPEED TRUE", "spd"⟩)]⟩

/-- A value oracle holding 123 for handle 0 and nothing else. -/
def oracleSpd : Nat → SimVarLookup :=
  fun d => if d = 0 then ⟨true, some (RawValue.f64 123), DataType.float64⟩
           else notFoundLookup

/-- Witness for C2 at the spec's airspeed scenario. -/
theorem C2_witness :
    Outbound.sendTo "clientA" ⟨"simvars", "panel1", buildVars reqSpd.Vars oracleSpd⟩
        ∈ OnDataReady [reqSpd] oracleSpd true
    ∧ ("spd", OutVal.float64 123) ∈ buildVars reqSpd.Vars oracleSpd :=
  ⟨(C2_per_request_payload [reqSpd] oracleSpd true reqSpd (by decide) (by decide)).1,
   (C2_per_request_payload [reqSpd] oracleSpd true reqSpd (by decide) (by decide)).2.1
      (0, ⟨"AIRSPEED TRUE", "spd"⟩) (by decide) (OutVal.float64 123) (by decide)⟩

/-- A found lookup whose type falls outside the switch, or whose value is
nil, converts to nothing. -/
theorem convert_unhandled_none (l : SimVarLookup)
    (hok : l.ok = true)
    (h : l.dataType ∉ handledDataTypes ∨ l.value = none) :
    convertSimVar l = none := by
  rcases l with ⟨ok, value, dt⟩
  rcases h with ht | hv
  · cases value with
    | none => simp [convertSimVar]
    | some raw =>
      simp only at hok
      cases dt <;> simp_all [convertSimVar, handledDataTypes]
  · simp only at hv
    simp [convertSimVar, hv]

/-- Claim C10 (confirmed): a subscription whose lookup is found but reports a
data type outside the handled set, or a nil value, contributes nothing to the
tick's alias-value map: the map is identical to the one built with that
handle reported as not found. -/
theorem C10_unhandled_treated_as_not_found (vars : List (Nat × Var))
    (simVars : Nat → SimVarLookup) (d : Nat)
    (hok : (simVars d).ok = true)
    (h : (simVars d).dataType ∉ handledDataTypes ∨ (simVars d).value = none) :
    buildVars vars (overrideOracle simVars d) = buildVars vars simVars := by
  have hnone : convertSimVar (simVars d) = none := convert_unhandled_none _ hok h
  have hnf : convertSimVar notFoundLookup = none := rfl
  rw [buildVars, buildVars]
  suffices hgen : ∀ (vs : List (Nat × Var)) (acc : List (String × OutVal)),
      vs.foldl (fun acc p =>
          match convertSimVar (overrideOracle simVars d p.1) with
          | none => acc
          | some out => mapInsert acc p.2.Moniker out) acc
        = vs.foldl (fun acc p =>
            match convertSimVar (simVars p.1) with
            | none => acc
            | some out => mapInsert acc p.2.Moniker out) acc by
    exact hgen vars []
  intro vs
  induction vs with
  | nil => intro acc; rfl
  | cons p t ih =>
    intro acc
    rw [List.foldl_cons, List.foldl_cons]
    by_cases hp : p.1 = d
    · rw [overrideOracle, if_pos hp, hnf, hp, hnone]
      exact ih acc
    · rw [overrideOracle, if_neg hp]
      exact ih _

/-- A value oracle reporting found values of an unhandled data type. -/
def oracleBadType : Nat → SimVarLookup :=
  fun _ => ⟨true, some (RawValue.f64 1), DataType.invalid⟩

/-- Witness for C10: an unhandled-type lookup behaves as not found. -/
theorem C10_witness :
    buildVars [(0, ⟨"X", "x"⟩)] (overrideOracle oracleBadType 0)
      = buildVars [(0, ⟨"X", "x"⟩)] oracleBadType :=
  C10_unhandled_treated_as_not_found [(0, ⟨"X", "x"⟩)] oracleBadType 0 rfl
    (Or.inl (by decide))

/-- The state after clientC registers alias a for the airspeed variable and
then re-registers with alias b only. -/
def stateReReg : AppState :=
  handleRegisterMessage
    (handleRegisterMessage initialState "clientC" "m1"
      [⟨"AIRSPEED TRUE", "knot", DataType.float64, "a"⟩])
    "clientC" "m2"
    [⟨"AIRSPEED TRUE", "knot", DataType.float64, "b"⟩]

/-- A value oracle answering 1 with type float64 for every handle. -/
def oracleOne : Nat → SimVarLookup :=
  fun _ => ⟨true, some (RawValue.f64 1), DataType.float64⟩

/-- Claim C3 counterexample: after clientC re-registers listing only alias b,
the next data-ready tick still sends clientC a payload containing the old
alias a — the prior Request was appended to, not replaced, so both Requests
of clientC are live. -/
theorem C3_counterexample :
    Outbound.sendTo "clientC" ⟨"simvars", "m1", [("a", OutVal.float64 1)]⟩
      ∈ OnDataReady stateReReg.requests oracleOne true
    ∧ stateReReg.requests.map (fun r => r.ClientID) = ["clientC", "clientC"] := by
  decide

/-- Claim C3 (amended): a second register message from the same client does
not replace the prior Request; it appends a new one, and every prior Request
still produces its own payload (with its old aliases) on the next tick. -/
theorem C3_register_appends (s : AppState) (connID meta : String)
    (entries : List RegEntry) (simVars : Nat → SimVarLookup) (connected : Bool)
    (r : Request) (hr : r ∈ s.requests) :
    Outbound.sendTo r.ClientID ⟨"simvars", r.Meta, buildVars r.Vars simVars⟩
        ∈ OnDataReady (handleRegisterMessage s connID meta entries).requests
            simVars connected
    ∧ (handleRegisterMessage s connID meta entries).requests.length
        = s.requests.length + 1 := by
  constructor
  · have hmem : r ∈ (handleRegisterMessage s connID meta entries).requests := by
      rw [handleRegisterMessage]
      exact List.mem_append_left _ hr
    rw [OnDataReady]
    exact List.mem_append_left _ (List.mem_map_of_mem _ hmem)
  · rw [handleRegisterMessage]
    simp

/-- The state after clientC's first register only. -/
def stateOneReg : AppState :=
  handleRegisterMessage initialState "clientC" "m1"
    [⟨"AIRSPEED TRUE", "knot", DataType.float64, "a"⟩]

/-- The Request created by clientC's first register. -/
def reqOld : Request := ⟨"clientC", "m1", [(0, ⟨"AIRSPEED TRUE", "a"⟩)]⟩

/-- Witness for the amended C3 at the concrete re-register scenario. -/
theorem C3_witness :
    Outbound.sendTo reqOld.ClientID
        ⟨"simvars", reqOld.Meta, buildVars reqOld.Vars oracleOne⟩
        ∈ OnDataReady (handleRegisterMessage stateOneReg "clientC" "m2"
            [⟨"AIRSPEED TRUE", "knot", DataType.float64, "b"⟩]).requests
            oracleOne true
    ∧ (handleRegisterMessage stateOneReg "clientC" "m2"
        [⟨"AIRSPEED TRUE", "knot", DataType.float64, "b"⟩]).requests.length
        = stateOneReg.requests.length + 1 :=
  C3_register_appends stateOneReg "clientC" "m2"
    [⟨"AIRSPEED TRUE", "knot", DataType.float64, "b"⟩] oracleOne true
    reqOld (by decide)

/-- Splitting the register trace projection over an appended trace. -/
theorem regIDs_append (a b : List GatewayEvent) :
    regIDs (a ++ b) = regIDs a ++ regIDs b := by
  rw [regIDs, regIDs, regIDs, List.filterMap_append]

/-- Splitting the deregister trace projection over an appended trace. -/
theorem deregIDs_append (a b : List GatewayEvent) :
    deregIDs (a ++ b) = deregIDs a ++ deregIDs b := by
  rw [deregIDs, deregIDs, deregIDs, List.filterMap_append]

/-- A single register call contributes its handle to the register trace. -/
theorem regIDs_addVar (d : Nat) (n u : String) (ty : DataType) :
    regIDs [GatewayEvent.addVar d n u ty] = [d] := rfl

/-- A single register call contributes nothing to the deregister trace. -/
theorem deregIDs_addVar (d : Nat) (n u : String) (ty : DataType) :
    deregIDs [GatewayEvent.addVar d n u ty] = [] := rfl

/-- Deregister calls contribute nothing to the register trace. -/
theorem regIDs_removes : ∀ ids : List Nat,
    regIDs (ids.map GatewayEvent.removeVar) = []
  | [] => rfl
  | _ :: t => regIDs_removes t

/-- The deregister trace of a run of deregister calls is exactly the list of
handles passed. -/
theorem deregIDs_removes : ∀ ids : List Nat,
    deregIDs (ids.map GatewayEvent.removeVar) = ids
  | [] => rfl
  | d :: t => by
      show d :: deregIDs (t.map GatewayEvent.removeVar) = d :: t
      rw [deregIDs_removes t]

/-- Folding RemoveSimVar appends one deregister event per handle and leaves
the handle counter unchanged. -/
theorem foldl_RemoveSimVar : ∀ (ids : List Nat) (m : MateState),
    (ids.foldl RemoveSimVar m).events = m.events ++ ids.map GatewayEvent.removeVar
    ∧ (ids.foldl RemoveSimVar m).nextID = m.nextID := by
  intro ids
  induction ids with
  | nil => intro m; exact ⟨by simp, rfl⟩
  | cons d t ih =>
    intro m
    rw [List.foldl_cons]
    obtain ⟨h1, h2⟩ := ih (RemoveSimVar m d)
    refine ⟨?_, h2⟩
    rw [h1]
    show (m.events ++ [GatewayEvent.removeVar d]) ++ _ = _
    rw [List.append_assoc]
    rfl

/-- flatMap is monotone with respect to the sublist order on the outer
list. -/
theorem flatMap_sublist {α β : Type u} (f : α → List β) :
    ∀ {l1 l2 : List α}, l1 <+ l2 → l1.flatMap f <+ l2.flatMap f := by
  intro l1 l2 h
  induction h with
  | slnil => exact List.Sublist.refl []
  | cons a h ih =>
    rw [List.flatMap_cons]
    exact ih.trans (List.sublist_append_right _ _)
  | cons₂ a h ih =>
    rw [List.flatMap_cons, List.flatMap_cons]
    exact ih.append_left _

/-- A conditional filterMap is a sublist of the corresponding map. -/
theorem filterMap_if_sublist {α β : Type u} (g : α → β) (P : α → Prop)
    [DecidablePred P] :
    ∀ l : List α,
    (l.filterMap (fun a => if P a then some (g a) else none)) <+ l.map g := by
  intro l
  induction l with
  | nil => exact List.Sublist.refl []
  | cons a t ih =>
    rw [List.filterMap_cons, List.map_cons]
    by_cases h : P a
    · rw [if_pos h]
      exact List.Sublist.cons₂ _ ih
    · rw [if_neg h]
      exact List.Sublist.cons _ ih

/-- flatMap is monotone with respect to pointwise sublists of the images. -/
theorem flatMap_mono {α β : Type u} {f g : α → List β} (h : ∀ a, f a <+ g a) :
    ∀ l : List α, l.flatMap f <+ l.flatMap g := by
  intro l
  induction l with
  | nil => exact List.Sublist.refl []
  | cons a t ih =>
    rw [List.flatMap_cons, List.flatMap_cons]
    exact (h a).append ih

/-- The handles removeRequests deregisters are drawn from the removed
Requests' handles. -/
theorem removedDefineIDs_sublist (temp removed : List Request) :
    removedDefineIDs temp removed <+ reqIDs removed := by
  show (removed.flatMap (fun r =>
      r.Vars.filterMap (fun p => if RefCount temp p.2.Name = 0 then some p.1 else none)))
    <+ removed.flatMap (fun r => r.Vars.map Prod.fst)
  exact flatMap_mono
    (fun r => filterMap_if_sublist (Prod.fst : Nat × Var → Nat)
      (fun p : Nat × Var => RefCount temp p.2.Name = 0) r.Vars)
    removed

/-- The handles of a cons of Requests. -/
theorem reqIDs_cons (r : Request) (l : List Request) :
    reqIDs (r :: l) = r.Vars.map Prod.fst ++ reqIDs l := by
  rw [reqIDs, reqIDs, List.flatMap_cons]

/-- The handles of appended Request lists. -/
theorem reqIDs_append (a b : List Request) :
    reqIDs (a ++ b) = reqIDs a ++ reqIDs b := by
  rw [reqIDs, reqIDs, reqIDs, List.flatMap_append]

/-- The handles of a singleton Request list. -/
theorem reqIDs_singleton (r : Request) :
    reqIDs [r] = r.Vars.map Prod.fst := by
  rw [reqIDs, List.flatMap_cons]
  simp [reqIDs]

/-- The handles of the kept and of the removed Requests together permute the
handles of all Requests. -/
theorem reqIDs_filter_perm (connID : String) :
    ∀ l : List Request,
    (reqIDs (l.filter (fun r => r.ClientID != connID))
      ++ reqIDs (l.filter (fun r => r.ClientID == connID))).Perm (reqIDs l) := by
  intro l
  induction l with
  | nil => simp [reqIDs]
  | cons r t ih =>
    rw [reqIDs_cons]
    by_cases h : r.ClientID = connID
    · rw [List.filter_cons, List.filter_cons, if_neg (by simp [h]), if_pos (by simp [h])]
      rw [reqIDs_cons]
      exact (List.perm_append_comm_assoc _ _ _).trans (List.Perm.append_left _ ih)
    · rw [List.filter_cons, List.filter_cons, if_pos (by simp [h]), if_neg (by simp [h])]
      rw [reqIDs_cons, List.append_assoc]
      exact List.Perm.append_left _ ih

/-- The trace and registry invariant maintained by register and deregister:
no handle is deregistered twice, only registered handles are deregistered,
the live Requests hold pairwise-distinct registered handles that have not
been deregistered, and every registered handle is below the counter. -/
def GoodState (s : AppState) : Prop :=
  (deregIDs s.mate.events).Nodup
  ∧ (∀ d ∈ deregIDs s.mate.events, d ∈ regIDs s.mate.events)
  ∧ (reqIDs s.requests).Nodup
  ∧ (∀ d ∈ reqIDs s.requests, d ∈ regIDs s.mate.events)
  ∧ (∀ d ∈ reqIDs s.requests, d ∉ deregIDs s.mate.events)
  ∧ (∀ d ∈ regIDs s.mate.events, d < s.mate.nextID)

/-- The register fold issues one provider register call per entry, handing
out fresh, distinct, increasing handles which become exactly the new
Request's handles; it never deregisters. -/
theorem regFold (entries : List RegEntry) :
    ∀ acc : Request × MateState,
    (∀ k ∈ acc.1.Vars.map Prod.fst, k < acc.2.nextID) →
    ∃ newIDs : List Nat,
      newIDs.length = entries.length
      ∧ newIDs.Nodup
      ∧ (∀ d ∈ newIDs, acc.2.nextID ≤ d)
      ∧ (∀ d ∈ newIDs, d < acc.2.nextID + entries.length)
      ∧ (entries.foldl regStep acc).2.nextID = acc.2.nextID + entries.length
      ∧ regIDs (entries.foldl regStep acc).2.events = regIDs acc.2.events ++ newIDs
      ∧ deregIDs (entries.foldl regStep acc).2.events = deregIDs acc.2.events
      ∧ (entries.foldl regStep acc).1.Vars.map Prod.fst
          = acc.1.Vars.map Prod.fst ++ newIDs := by
  induction entries with
  | nil =>
    intro acc _
    exact ⟨[], rfl, List.nodup_nil, by simp, by simp, by simp, by simp, rfl, by simp⟩
  | cons e t ih =>
    intro acc hk
    rw [List.foldl_cons]
    simp only [List.length_cons]
    have habs : acc.2.nextID ∉ acc.1.Vars.map Prod.fst :=
      fun hmem => absurd (hk _ hmem) (lt_irrefl _)
    have hkeys : (regStep acc e).1.Vars.map Prod.fst
        = acc.1.Vars.map Prod.fst ++ [acc.2.nextID] := by
      show (mapInsert acc.1.Vars acc.2.nextID ⟨e.name, e.moniker⟩).map Prod.fst = _
      rw [mapInsert_absent acc.1.Vars acc.2.nextID ⟨e.name, e.moniker⟩ habs,
        List.map_append]
      rfl
    have hk1 : ∀ k ∈ (regStep acc e).1.Vars.map Prod.fst, k < (regStep acc e).2.nextID := by
      rw [hkeys]
      intro k hkm
      rcases List.mem_append.mp hkm with h1 | h2
      · exact Nat.lt_succ_of_lt (hk k h1)
      · have h3 : k = acc.2.nextID := by simpa using h2
        rw [h3]
        exact Nat.lt_succ_self _
    obtain ⟨nids, hlen, hnd, hge, hlt, hnext, hreg, hdereg, hvars⟩ := ih (regStep acc e) hk1
    have hge1 : ∀ d ∈ nids, acc.2.nextID + 1 ≤ d := hge
    have hlt1 : ∀ d ∈ nids, d < acc.2.nextID + 1 + t.length := hlt
    have hnext1 : (List.foldl regStep (regStep acc e) t).2.nextID
        = acc.2.nextID + 1 + t.length := hnext
    have hreg1 : regIDs (List.foldl regStep (regStep acc e) t).2.events
        = regIDs (acc.2.events
            ++ [GatewayEvent.addVar acc.2.nextID e.name e.unit e.typ]) ++ nids := hreg
    have hdereg1 : deregIDs (List.foldl regStep (regStep acc e) t).2.events
        = deregIDs (acc.2.events
            ++ [GatewayEvent.addVar acc.2.nextID e.name e.unit e.typ]) := hdereg
    have hvars1 : (List.foldl regStep (regStep acc e) t).1.Vars.map Prod.fst
        = (acc.1.Vars.map Prod.fst ++ [acc.2.nextID]) ++ nids := by
      rw [hvars, hkeys]
    refine ⟨acc.2.nextID :: nids, ?_, ?_, ?_, ?_, ?_, ?_, ?_, ?_⟩
    · simp [hlen]
    · exact List.nodup_cons.mpr
        ⟨fun hmem => absurd (hge1 _ hmem) (by omega), hnd⟩
    · intro d hd
      rcases List.mem_cons.mp hd with h1 | h2
      · rw [h1]
      · have := hge1 d h2
        omega
    · intro d hd
      rcases List.mem_cons.mp hd with h1 | h2
      · subst h1
        omega
      · have := hlt1 d h2
        omega
    · rw [hnext1]
      omega
    · rw [hreg1, regIDs_append, regIDs_addVar, List.append_assoc]
      rfl
    · rw [hdereg1, deregIDs_append, deregIDs_addVar, List.append_nil]
    · rw [hvars1, List.append_assoc]
      rfl

/-- handleRegisterMessage preserves the trace and registry invariant. -/
theorem GoodState_register (s : AppState) (connID meta : String)
    (entries : List RegEntry) (hg : GoodState s) :
    GoodState (handleRegisterMessage s connID meta entries) := by
  obtain ⟨g1, g2, g3, g4, g5, g6⟩ := hg
  obtain ⟨nids, hlen, hnd, hge, hlt, hnext, hreg, hdereg, hvars⟩ :=
    regFold entries (NewRequest connID meta, s.mate) (by simp [NewRequest])
  have hge1 : ∀ d ∈ nids, s.mate.nextID ≤ d := hge
  have hlt1 : ∀ d ∈ nids, d < s.mate.nextID + entries.length := hlt
  have hnext1 : (entries.foldl regStep (NewRequest connID meta, s.mate)).2.nextID
      = s.mate.nextID + entries.length := hnext
  have hreg1 : regIDs (entries.foldl regStep (NewRequest connID meta, s.mate)).2.events
      = regIDs s.mate.events ++ nids := hreg
  have hdereg1 : deregIDs (entries.foldl regStep (NewRequest connID meta, s.mate)).2.events
      = deregIDs s.mate.events := hdereg
  have hvars1 : (entries.foldl regStep (NewRequest connID meta, s.mate)).1.Vars.map Prod.fst
      = nids := by
    rw [hvars]
    exact rfl
  have hsreq : (handleRegisterMessage s connID meta entries).requests
      = s.requests ++ [(entries.foldl regStep (NewRequest connID meta, s.mate)).1] := rfl
  have hsmate : (handleRegisterMessage s connID meta entries).mate
      = (entries.foldl regStep (NewRequest connID meta, s.mate)).2 := rfl
  refine ⟨?_, ?_, ?_, ?_, ?_, ?_⟩
  · rw [hsmate, hdereg1]
    exact g1
  · intro d hd
    rw [hsmate, hdereg1] at hd
    rw [hsmate, hreg1]
    exact List.mem_append_left _ (g2 d hd)
  · rw [hsreq, reqIDs_append, reqIDs_singleton, hvars1]
    exact List.nodup_append.mpr
      ⟨g3, hnd, fun d hd1 hd2 =>
        absurd (g6 d (g4 d hd1)) (by have := hge1 d hd2; omega)⟩
  · intro d hd
    rw [hsreq, reqIDs_append, reqIDs_singleton, hvars1] at hd
    rw [hsmate, hreg1]
    rcases List.mem_append.mp hd with h | h
    · exact List.mem_append_left _ (g4 d h)
    · exact List.mem_append_right _ h
  · intro d hd hd2
    rw [hsreq, reqIDs_append, reqIDs_singleton, hvars1] at hd
    rw [hsmate, hdereg1] at hd2
    rcases List.mem_append.mp hd with h | h
    · exact g5 d h hd2
    · have h6 := g6 d (g2 d hd2)
      have h7 := hge1 d h
      omega
  · intro d hd
    rw [hsmate, hreg1] at hd
    rw [hsmate, hnext1]
    rcases List.mem_append.mp hd with h | h
    · have := g6 d h
      omega
    · exact hlt1 d h

/-- removeRequests preserves the trace and registry invariant. -/
theorem GoodState_remove (s : AppState) (connID : String) (hg : GoodState s) :
    GoodState (removeRequests s connID) := by
  obtain ⟨g1, g2, g3, g4, g5, g6⟩ := hg
  have hperm := reqIDs_filter_perm connID s.requests
  have hKR : (reqIDs (s.requests.filter (fun r => r.ClientID != connID))
      ++ reqIDs (s.requests.filter (fun r => r.ClientID == connID))).Nodup :=
    hperm.nodup_iff.mpr g3
  obtain ⟨hKnd, hRnd, hKRdisj⟩ := List.nodup_append.mp hKR
  have hDsub : removedDefineIDs (s.requests.filter (fun r => r.ClientID != connID))
      (s.requests.filter (fun r => r.ClientID == connID))
      <+ reqIDs (s.requests.filter (fun r => r.ClientID == connID)) :=
    removedDefineIDs_sublist _ _
  have hDnd : (removedDefineIDs (s.requests.filter (fun r => r.ClientID != connID))
      (s.requests.filter (fun r => r.ClientID == connID))).Nodup :=
    List.Nodup.sublist hDsub hRnd
  have hRmem : ∀ d ∈ reqIDs (s.requests.filter (fun r => r.ClientID == connID)),
      d ∈ reqIDs s.requests :=
    fun d hd => hperm.subset (List.mem_append_right _ hd)
  have hKmem : ∀ d ∈ reqIDs (s.requests.filter (fun r => r.ClientID != connID)),
      d ∈ reqIDs s.requests :=
    fun d hd => hperm.subset (List.mem_append_left _ hd)
  have hDmemR : ∀ d ∈ removedDefineIDs (s.requests.filter (fun r => r.ClientID != connID))
      (s.requests.filter (fun r => r.ClientID == connID)),
      d ∈ reqIDs (s.requests.filter (fun r => r.ClientID == connID)) :=
    fun d hd => hDsub.subset hd
  obtain ⟨hev, hnid⟩ := foldl_RemoveSimVar
    (removedDefineIDs (s.requests.filter (fun r => r.ClientID != connID))
      (s.requests.filter (fun r => r.ClientID == connID))) s.mate
  have hrq : (removeRequests s connID).requests
      = s.requests.filter (fun r => r.ClientID != connID) := rfl
  have hdereg : deregIDs (removeRequests s connID).mate.events
      = deregIDs s.mate.events
        ++ removedDefineIDs (s.requests.filter (fun r => r.ClientID != connID))
            (s.requests.filter (fun r => r.ClientID == connID)) := by
    show deregIDs
        ((removedDefineIDs (s.requests.filter (fun r => r.ClientID != connID))
          (s.requests.filter (fun r => r.ClientID == connID))).foldl
            RemoveSimVar s.mate).events = _
    rw [hev, deregIDs_append, deregIDs_removes]
  have hreg : regIDs (removeRequests s connID).mate.events = regIDs s.mate.events := by
    show regIDs
        ((removedDefineIDs (s.requests.filter (fun r => r.ClientID != connID))
          (s.requests.filter (fun r => r.ClientID == connID))).foldl
            RemoveSimVar s.mate).events = _
    rw [hev, regIDs_append, regIDs_removes, List.append_nil]
  have hnext : (removeRequests s connID).mate.nextID = s.mate.nextID := hnid
  refine ⟨?_, ?_, ?_, ?_, ?_, ?_⟩
  · rw [hdereg]
    exact List.nodup_append.mpr
      ⟨g1, hDnd, fun d hd1 hd2 => g5 d (hRmem d (hDmemR d hd2)) hd1⟩
  · intro d hd
    rw [hdereg] at hd
    rw [hreg]
    rcases List.mem_append.mp hd with h | h
    · exact g2 d h
    · exact g4 d (hRmem d (hDmemR d h))
  · rw [hrq]
    exact hKnd
  · intro d hd
    rw [hrq] at hd
    rw [hreg]
    exact g4 d (hKmem d hd)
  · intro d hd hd2
    rw [hrq] at hd
    rw [hdereg] at hd2
    rcases List.mem_append.mp hd2 with h | h
    · exact g5 d (hKmem d hd) h
    · exact hKRdisj hd (hDmemR d h)
  · intro d hd
    rw [hreg] at hd
    rw [hnext]
    exact g6 d hd

/-- The startup state satisfies the invariant. -/
theorem GoodState_initial : GoodState initialState := by
  refine ⟨?_, ?_, ?_, ?_, ?_, ?_⟩ <;> simp [initialState, deregIDs, regIDs, reqIDs]

/-- Every register / deregister run from startup satisfies the invariant. -/
theorem GoodState_run (ops : List Op) : GoodState (run ops) := by
  rw [run]
  have hgen : ∀ s, GoodState s → GoodState (ops.foldl stepOp s) := by
    induction ops with
    | nil => intro s hs; exact hs
    | cons op t ih =>
      intro s hs
      rw [List.foldl_cons]
      refine ih _ ?_
      cases op with
      | register c m es => exact GoodState_register s c m es hs
      | deregister c => exact GoodState_remove s c hs
  exact hgen initialState GoodState_initial

/-- Two clients subscribing the same variable name under different aliases. -/
def opsShared : List Op :=
  [Op.register "clientA" "" [⟨"AIRSPEED TRUE", "knot", DataType.float64, "a"⟩],
   Op.register "clientB" "" [⟨"AIRSPEED TRUE", "knot", DataType.float64, "b"⟩]]

/-- Claim C1 counterexample: with two clients subscribing the same variable
name, the name's reference count passes 0, 1, 2 — a single transition from 0
to 1 — yet the provider register call for the name is issued twice (once per
subscription); and after clientA deregisters (count 2 to 1, releasing the
last subscription that references handle 0) no deregister is issued, and
even after clientB also deregisters only handle 1 is ever deregistered, so
handle 0's registration is never removed. -/
theorem C1_counterexample :
    RefCount (run []).requests "AIRSPEED TRUE" = 0
    ∧ RefCount (run (opsShared.take 1)).requests "AIRSPEED TRUE" = 1
    ∧ RefCount (run opsShared).requests "AIRSPEED TRUE" = 2
    ∧ (regEventsFor (run opsShared).mate.events "AIRSPEED TRUE").length = 2
    ∧ deregIDs (run (opsShared ++ [Op.deregister "clientA"])).mate.events = []
    ∧ RefCount (run (opsShared ++ [Op.deregister "clientA"])).requests
        "AIRSPEED TRUE" = 1
    ∧ deregIDs (run (opsShared
        ++ [Op.deregister "clientA", Op.deregister "clientB"])).mate.events = [1]
    ∧ 0 ∈ regIDs (run opsShared).mate.events := by
  decide

/-- Claim C1 (amended): over every sequence of register and deregister
operations from startup, the provider trace never deregisters the same
handle twice and deregisters only previously registered handles (the
reference count, being a recomputed entry count, is never negative by
construction); and each register message issues exactly one provider
register call per entry — one registration per subscription rather than one
per 0-to-1 reference count transition. -/
theorem C1_registration_discipline (ops : List Op) :
    (deregIDs (run ops).mate.events).Nodup
    ∧ (∀ d ∈ deregIDs (run ops).mate.events, d ∈ regIDs (run ops).mate.events)
    ∧ (∀ (connID meta : String) (entries : List RegEntry),
        (regIDs (handleRegisterMessage (run ops) connID meta entries).mate.events).length
          = (regIDs (run ops).mate.events).length + entries.length) := by
  obtain ⟨g1, g2, -, -, -, -⟩ := GoodState_run ops
  refine ⟨g1, g2, ?_⟩
  intro connID meta entries
  obtain ⟨nids, hlen, -, -, -, -, hreg, -, -⟩ :=
    regFold entries (NewRequest connID meta, (run ops).mate) (by simp [NewRequest])
  have hm : (handleRegisterMessage (run ops) connID meta entries).mate
      = (entries.foldl regStep (NewRequest connID meta, (run ops).mate)).2 := rfl
  rw [hm, hreg, List.length_append, hlen]

/-- One client registering then deregistering one variable. -/
def opsWitness : List Op :=
  [Op.register "clientA" "" [⟨"AIRSPEED TRUE", "knot", DataType.float64, "a"⟩],
   Op.deregister "clientA"]

/-- Witness for the amended C1: on a concrete run the deregistered handle 0
was indeed registered, and a further one-entry register message adds exactly
one register call. -/
theorem C1_witness :
    0 ∈ regIDs (run opsWitness).mate.events
    ∧ (regIDs (handleRegisterMessage (run opsWitness) "clientB" "m"
        [⟨"PLANE ALTITUDE", "feet", DataType.float64, "alt"⟩]).mate.events).length
        = (regIDs (run opsWitness).mate.events).length + 1 :=
  ⟨(C1_registration_discipline opsWitness).2.1 0 (by decide),
   (C1_registration_discipline opsWitness).2.2 "clientB" "m"
      [⟨"PLANE ALTITUDE", "feet", DataType.float64, "alt"⟩]⟩
